import Mathlib

/-!
Verification of the fire-incident reporting backend: the alert lifecycle
state machine and the real-time notification delivery subsystem
(app.py, route/alert_route.py, route/notification_route.py,
model/alert_model.py, model/notification_model.py).

Modelling conventions:
- timestamps are abstract Nat instants (one value serves both the datetime
  columns and the integer second counter returned by
  get_philippine_timestamp, since both are samples of the same clock);
- geographic coordinates are abstracted to integers, as no verified
  property depends on their numeric value, only on their printed form;
- the relational store is a pair of lists of rows; the SQLAlchemy session
  commit is recorded as an event in a per-request trace;
- Python dictionaries whose key set matters (notification_data) are
  modelled with Option fields where none marks an absent key;
- fallible steps never raise in the model because the source wraps them in
  blanket except blocks; the logFail flag models a store-side insert
  failure inside save_notification.
-/

namespace FireBackend

/-- Alert row of the alerts table (model/alert_model.py). -/
structure Alert where
  id : Nat
  user_id : Option Int := none
  description : Option String := none
  latitude : Int := 0
  longitude : Int := 0
  photo_filename : Option String := none
  video_filename : Option String := none
  timestamp : Option Nat := none
  barangay : Option String := none
  reporter_name : Option String := none
  resolved : Bool := false
  admin_response : Option String := none
  responded_at : Option Nat := none
  resolved_at : Option Nat := none
  resolve_time : Option String := none
  status : Option String := some "pending"
deriving Repr, DecidableEq

/-- Notification row of the notifications table
(model/notification_model.py). -/
structure Notification where
  id : String
  user_id : String
  type : String
  title : String
  message : String
  alert_id : Option String := none
  alert_location : Option String := none
  resolve_time : Option String := none
  timestamp : Nat
  read : Bool := false
deriving Repr, DecidableEq

/-- The notification_data dictionary built by the admin action handlers in
app.py before calling save_notification. Key presence matters for the SQL
insert, so alert_location is none exactly when the key is absent (the
delete handler omits it), and resolve_time is doubly optional: none means
the key is absent, some v means the key is present holding v. -/
structure NotifData where
  id : String
  user_id : String
  type : String
  title : String
  message : String
  alert_id : String
  alert_location : Option String := none
  resolve_time : Option (Option String) := none
  timestamp : Nat
  read : Bool := false
deriving Repr, DecidableEq

/-- The durable store: the alerts and notifications tables. -/
structure DB where
  alerts : List Alert := []
  notifications : List Notification := []
deriving Repr, DecidableEq

/-- Alert.query.get on the primary key. -/
def findAlert (db : DB) (aid : Nat) : Option Alert :=
  db.alerts.find? (fun a => a.id == aid)

/-- Committing a mutated alert row back to the store. -/
def updateAlert (db : DB) (a : Alert) : DB :=
  { db with alerts := db.alerts.map (fun x => if x.id == a.id then a else x) }

/-- db.session.delete on an alert row. -/
def removeAlert (db : DB) (aid : Nat) : DB :=
  { db with alerts := db.alerts.filter (fun a => a.id != aid) }

/-!
SSE connection registry (app.py lines 106 to 148): a table mapping a user
id to the list of open connection queues, plus the contents of each queue.
Queues are identified by Nat ids; an id missing from the queues table
holds nothing yet. The Python dict has unique keys, which the operations
below preserve; the per-user list may hold duplicates, exactly as the
Python list does.
-/

structure SSEState where
  conns : List (String × List Nat) := []
  queues : List (Nat × List NotifData) := []
deriving Repr, DecidableEq

/-- Lookup of active_sse_connections for one user. -/
def connsFor (s : SSEState) (uid : String) : Option (List Nat) :=
  (s.conns.find? (fun p => p.1 == uid)).map (fun p => p.2)

/-- Contents of one connection queue. -/
def queueContents (s : SSEState) (q : Nat) : List NotifData :=
  match s.queues.find? (fun p => p.1 == q) with
  | some p => p.2
  | none => []

/-- add_sse_connection in app.py: append the queue to the user entry,
creating the entry when absent. -/
def add_sse_connection (s : SSEState) (uid : String) (q : Nat) : SSEState :=
  if s.conns.any (fun p => p.1 == uid) then
    { s with conns := s.conns.map (fun p => if p.1 == uid then (p.1, p.2 ++ [q]) else p) }
  else
    { s with conns := s.conns ++ [(uid, [q])] }

/-- remove_sse_connection in app.py: list.remove drops the first occurrence
of the queue and raises ValueError when absent, which the handler catches
as a no-op; the user entry is dropped when its list becomes empty. -/
def remove_sse_connection (s : SSEState) (uid : String) (q : Nat) : SSEState :=
  match s.conns.find? (fun p => p.1 == uid) with
  | none => s
  | some p =>
    if q ∈ p.2 then
      let l := p.2.erase q
      if l.isEmpty then
        { s with conns := s.conns.filter (fun r => r.1 != uid) }
      else
        { s with conns := s.conns.map (fun r => if r.1 == uid then (r.1, l) else r) }
    else s

/-- Enqueue one payload into one queue. -/
def putQueue (qs : List (Nat × List NotifData)) (q : Nat) (nd : NotifData) :
    List (Nat × List NotifData) :=
  if qs.any (fun p => p.1 == q) then
    qs.map (fun p => if p.1 == q then (p.1, p.2 ++ [nd]) else p)
  else qs ++ [(q, [nd])]

/-- send_sse_notification in app.py: when the user has an entry, put the
payload into every queue currently registered for that user, in order; a
user with no entry is a silent no-op. The unbounded queue.Queue put never
raises, so the dead-queue cleanup branch is unreachable. -/
def send_sse_notification (s : SSEState) (uid : String) (nd : NotifData) : SSEState :=
  match s.conns.find? (fun p => p.1 == uid) with
  | none => s
  | some p => { s with queues := p.2.foldl (fun qs q => putQueue qs q nd) s.queues }

/-!
Shared helpers of the handlers in app.py.
-/

/-- Python truthiness of the nullable integer user_id column. -/
def truthyId : Option Int → Bool
  | none => false
  | some n => n != 0

/-- Python str applied to the nullable user_id column. -/
def pyStr : Option Int → String
  | none => "None"
  | some n => toString n

/-- Python s1 or s2 on a nullable string column: the fallback is taken
when the column is null or empty. -/
def pyStrOr (s : Option String) (d : String) : String :=
  match s with
  | some v => if v = "" then d else v
  | none => d

/-- The formatted coordinate pair used as location fallback. -/
def coordText (a : Alert) : String :=
  toString a.latitude ++ ", " ++ toString a.longitude

/-- Location string alert.barangay or formatted coordinates. -/
def alertLocation (a : Alert) : String :=
  pyStrOr a.barangay (coordText a)

/-- Recipient identity str(alert.user_id) if alert.user_id else unknown. -/
def recipientOf (a : Alert) : String :=
  if truthyId a.user_id then pyStr a.user_id else "unknown"

/-- Notification id as built in every handler: a composite of the stable
prefix, the alert id, and the second-granularity creation timestamp. -/
def notifId (aid ts : Nat) : String :=
  "notif_" ++ toString aid ++ "_" ++ toString ts

/-- Test that needle is a leading segment of hay, on character lists. -/
def charsStartWith : List Char → List Char → Bool
  | _, [] => true
  | [], _ :: _ => false
  | a :: as, b :: bs => a == b && charsStartWith as bs

/-- Substring search on character lists. -/
def charsContain : List Char → List Char → Bool
  | [], needle => needle.isEmpty
  | h :: t, needle => charsStartWith (h :: t) needle || charsContain t needle

/-- Python substring containment test needle in hay. -/
def pyContains (hay needle : String) : Bool :=
  charsContain hay.data needle.data

/-- Split a character list at every occurrence of the separator. -/
def splitChars (c : Char) : List Char → List (List Char)
  | [] => [[]]
  | h :: t =>
    match splitChars c t with
    | [] => [[h]]
    | x :: xs => if h == c then [] :: x :: xs else (h :: x) :: xs

/-- Python split of a URL on the slash separator. -/
def pySplitSlash (s : String) : List String :=
  (splitChars (Char.ofNat 47) s.data).map (fun l => String.mk l)

/-!
Alert row mutations performed by each lifecycle transition, exactly the
field assignments of the corresponding handler in app.py.
-/

/-- Row inserted by send_alert in route/alert_route.py: status pending,
resolved false, resolved_at left at its null default; the id is assigned
by the store. -/
def submittedAlert (aid : Nat) (uid : Option Int) (desc : Option String)
    (lat lng : Int) (photos videos : Option String)
    (bar rep : Option String) (ts : Nat) : Alert :=
  { id := aid, user_id := uid, description := desc,
    latitude := lat, longitude := lng, photo_filename := photos,
    video_filename := videos, barangay := bar, reporter_name := rep,
    timestamp := some ts, status := some "pending", resolved := false }

/-- Field assignments of respond_alert (app.py lines 606 to 610). -/
def respondMutation (now : Nat) (message : String) (a : Alert) : Alert :=
  { a with admin_response := some message, responded_at := some now,
           status := some "received" }

/-- Field assignments of resolve_alert_with_time (app.py lines 667 to 672). -/
def resolveWithTimeMutation (now : Nat) (rt : String) (a : Alert) : Alert :=
  { a with status := some "resolved", resolved := true,
           resolved_at := some now, resolve_time := some rt }

/-- Field assignments of mark_spam (app.py lines 799 to 804). -/
def markSpamMutation (now : Nat) (a : Alert) : Alert :=
  { a with status := some "spam", resolved := true, resolved_at := some now }

/-- Field assignments of restore_spam_alert (app.py lines 899 to 904). -/
def restoreSpamMutation (a : Alert) : Alert :=
  { a with status := some "pending", resolved := false, resolved_at := none }

/-- Field assignments of the legacy resolve_alert (app.py lines 1050 to
1053): the status column is not touched. -/
def legacyResolveMutation (now : Nat) (a : Alert) : Alert :=
  { a with resolved := true, resolved_at := some now }

/-- Field assignments of unresolve_alert (app.py lines 1078 to 1081): the
status column is not touched. -/
def unresolveMutation (a : Alert) : Alert :=
  { a with resolved := false, resolved_at := none }

/-!
The notification_data dictionaries each handler builds, key for key.
-/

/-- Dictionary built by respond_alert (app.py lines 613 to 624); reached
only when alert.user_id is truthy, so user_id is str(alert.user_id). -/
def respondNotifData (now aid : Nat) (a : Alert) (message : String) : NotifData :=
  { id := notifId aid now, user_id := pyStr a.user_id, type := "response",
    title := "🚒 Fire Station Response", message := message,
    alert_id := toString aid, alert_location := some (alertLocation a),
    timestamp := now, read := false, resolve_time := some none }

/-- Dictionary built by resolve_alert_with_time (app.py lines 675 to 686). -/
def resolveNotifData (now aid : Nat) (a : Alert) (rt : String) : NotifData :=
  { id := notifId aid now, user_id := recipientOf a, type := "resolved",
    title := "✅ Fire Alert Resolved",
    message := "Fire at " ++ pyStrOr a.barangay "your location" ++
      " has been extinguished at " ++ rt ++ ".",
    alert_id := toString aid, alert_location := some (alertLocation a),
    resolve_time := some (some rt), timestamp := now, read := false }

/-- Dictionary built by delete_alert_new (app.py lines 725 to 735): the
alert_location key is absent from this dictionary. -/
def deleteNotifData (now aid : Nat) (a : Alert) : NotifData :=
  { id := notifId aid now, user_id := recipientOf a, type := "deleted",
    title := "🗑️ Alert Removed",
    message := "Your fire alert at " ++ alertLocation a ++
      " has been removed from the system.",
    alert_id := toString aid, alert_location := none,
    timestamp := now, read := false, resolve_time := some none }

/-- Dictionary built by mark_spam (app.py lines 807 to 818). -/
def spamNotifData (now aid : Nat) (a : Alert) : NotifData :=
  { id := notifId aid now, user_id := recipientOf a, type := "spam",
    title := "⚠️ Alert Marked as Spam",
    message := "Your fire alert at " ++ alertLocation a ++
      " has been marked as spam and removed from active alerts.",
    alert_id := toString aid, alert_location := some (alertLocation a),
    timestamp := now, read := false, resolve_time := some none }

/-- Dictionary built by restore_spam_alert (app.py lines 907 to 918). -/
def restoreNotifData (now aid : Nat) (a : Alert) : NotifData :=
  { id := notifId aid now, user_id := recipientOf a, type := "restored",
    title := "✅ Alert Restored",
    message := "Your fire alert at " ++ alertLocation a ++
      " has been restored and is now active again.",
    alert_id := toString aid, alert_location := some (alertLocation a),
    timestamp := now, read := false, resolve_time := some none }

/-!
Observable steps of one request, recorded in order in a trace.
-/

/-- Events a handler can perform, in the order it performs them. -/
inductive Event where
  | alertCommit
  | notifLogWrite
  | ssePush
  | pushProvider
  | mediaRelease
  | rowDelete
  | rollback
deriving Repr, DecidableEq

/-- HTTP outcome of one handler call. -/
inductive Resp where
  | success
  | notFound
  | badRequest
deriving Repr, DecidableEq

/-- Outcome of one admin action: response, stores, trace. -/
structure HResult where
  resp : Resp
  db : DB
  sse : SSEState
  trace : List Event
deriving Repr, DecidableEq

/-- Test that in a trace the first occurrence of e1 strictly precedes the
first occurrence of e2; vacuously true when e2 never occurs. -/
def precedesB (e1 e2 : Event) : List Event → Bool
  | [] => true
  | e :: tr => if e == e2 then false else if e == e1 then true else precedesB e1 e2 tr

/-- The notifications row save_notification inserts from a
notification_data dictionary whose alert_location key holds loc. -/
def notifRow (nd : NotifData) (loc : String) : Notification :=
  { id := nd.id, user_id := nd.user_id, type := nd.type, title := nd.title,
    message := nd.message, alert_id := some nd.alert_id,
    alert_location := some loc, resolve_time := nd.resolve_time.getD none,
    timestamp := nd.timestamp, read := nd.read }

/-- save_notification in app.py (lines 219 to 248): setdefault the
resolve_time key, insert the row, then fan out over SSE when the recipient
is a known user. The SQL insert binds the alert_location parameter, so a
dictionary lacking that key makes the insert raise; the blanket except
catches any insert failure, so nothing is stored, no SSE push happens, and
no error escapes to the caller. The logFail flag models a store-side
insert failure, such as the violation of the primary-key constraint on
the id column raised when a row with the same id already exists; in the
program that failure too is swallowed with nothing stored and no push, so
the store never keeps two rows with the same id — a colliding emission is
silently lost instead. -/
def save_notification (logFail : Bool) (nd : NotifData) (db : DB) (sse : SSEState) :
    DB × SSEState × List Event :=
  match nd.alert_location with
  | none => (db, sse, [Event.notifLogWrite])
  | some loc =>
    if logFail then (db, sse, [Event.notifLogWrite])
    else
      let db1 : DB := { db with notifications := db.notifications ++ [notifRow nd loc] }
      if nd.user_id != "" && nd.user_id != "unknown" then
        (db1, send_sse_notification sse nd.user_id nd,
          [Event.notifLogWrite, Event.ssePush])
      else
        (db1, sse, [Event.notifLogWrite])

/-!
Admin action handlers (app.py). Each takes the clock value, the store and
registry states and the request fields, and returns the response together
with the new states and the trace of performed steps.
-/

/-- respond_alert (app.py lines 577 to 647). -/
def respond_alert (now : Nat) (logFail : Bool) (db : DB) (sse : SSEState)
    (alert_id : Nat) (message : String) : HResult :=
  if alert_id == 0 || message == "" then ⟨Resp.badRequest, db, sse, []⟩
  else
    match findAlert db alert_id with
    | none => ⟨Resp.notFound, db, sse, []⟩
    | some a =>
      if !truthyId a.user_id then
        ⟨Resp.success, updateAlert db (respondMutation now message a), sse,
          [Event.alertCommit]⟩
      else
        let db1 := updateAlert db (respondMutation now message a)
        let r := save_notification logFail (respondNotifData now alert_id a message) db1 sse
        ⟨Resp.success, r.1, r.2.1, Event.alertCommit :: r.2.2 ++ [Event.pushProvider]⟩

/-- resolve_alert_with_time (app.py lines 650 to 708). -/
def resolve_alert_with_time (now : Nat) (logFail : Bool) (db : DB) (sse : SSEState)
    (alert_id : Nat) (resolve_time : String) : HResult :=
  if alert_id == 0 || resolve_time == "" then ⟨Resp.badRequest, db, sse, []⟩
  else
    match findAlert db alert_id with
    | none => ⟨Resp.notFound, db, sse, []⟩
    | some a =>
      let db1 := updateAlert db (resolveWithTimeMutation now resolve_time a)
      let r := save_notification logFail (resolveNotifData now alert_id a resolve_time) db1 sse
      ⟨Resp.success, r.1, r.2.1, Event.alertCommit :: r.2.2 ++ [Event.pushProvider]⟩

/-- Media release steps of delete_alert_new: one cloudinary deletion per
hosted file whose URL names the fire_alerts folder. -/
def mediaReleaseEvents (a : Alert) : List Event :=
  (match a.photo_filename with
   | some f =>
     if pyContains f "cloudinary.com" && (pySplitSlash f).contains "fire_alerts" then
       [Event.mediaRelease]
     else []
   | none => []) ++
  (match a.video_filename with
   | some f =>
     if pyContains f "cloudinary.com" && (pySplitSlash f).contains "fire_alerts" then
       [Event.mediaRelease]
     else []
   | none => [])

/-- delete_alert_new (app.py lines 711 to 782): build and attempt the
notification first, then the provider push, then release hosted media,
then delete the row and commit. -/
def delete_alert_new (now : Nat) (logFail : Bool) (db : DB) (sse : SSEState)
    (alert_id : Nat) : HResult :=
  match findAlert db alert_id with
  | none => ⟨Resp.notFound, db, sse, []⟩
  | some a =>
    let r := save_notification logFail (deleteNotifData now alert_id a) db sse
    ⟨Resp.success, removeAlert r.1 alert_id, r.2.1,
      r.2.2 ++ [Event.pushProvider] ++ mediaReleaseEvents a ++
        [Event.rowDelete, Event.alertCommit]⟩

/-- mark_spam (app.py lines 785 to 840). -/
def mark_spam (now : Nat) (logFail : Bool) (db : DB) (sse : SSEState)
    (alert_id : Nat) : HResult :=
  match findAlert db alert_id with
  | none => ⟨Resp.notFound, db, sse, []⟩
  | some a =>
    let db1 := updateAlert db (markSpamMutation now a)
    let r := save_notification logFail (spamNotifData now alert_id a) db1 sse
    ⟨Resp.success, r.1, r.2.1, Event.alertCommit :: r.2.2 ++ [Event.pushProvider]⟩

/-- restore_spam_alert (app.py lines 885 to 933); no provider push here. -/
def restore_spam_alert (now : Nat) (logFail : Bool) (db : DB) (sse : SSEState)
    (alert_id : Nat) : HResult :=
  match findAlert db alert_id with
  | none => ⟨Resp.notFound, db, sse, []⟩
  | some a =>
    let db1 := updateAlert db (restoreSpamMutation a)
    let r := save_notification logFail (restoreNotifData now alert_id a) db1 sse
    ⟨Resp.success, r.1, r.2.1, Event.alertCommit :: r.2.2⟩

/-- Legacy resolve_alert (app.py lines 1040 to 1065): no notification. -/
def resolve_alert (now : Nat) (db : DB) (alert_id : Nat) : Resp × DB :=
  match findAlert db alert_id with
  | none => (Resp.notFound, db)
  | some a => (Resp.success, updateAlert db (legacyResolveMutation now a))

/-- unresolve_alert (app.py lines 1068 to 1093): no notification. -/
def unresolve_alert (db : DB) (alert_id : Nat) : Resp × DB :=
  match findAlert db alert_id with
  | none => (Resp.notFound, db)
  | some a => (Resp.success, updateAlert db (unresolveMutation a))

/-- mark_notification_read (route/notification_route.py lines 71 to 100):
an unconditional UPDATE with no existence check, always answered with
success. -/
def mark_notification_read (db : DB) (nid : String) : Resp × DB :=
  let ns := db.notifications.map (fun n => if n.id == nid then { n with read := true } else n)
  (Resp.success, { db with notifications := ns })

/-- delete_notification (route/notification_route.py lines 152 to 188):
checks existence first and answers not found for an unknown id. -/
def delete_notification (db : DB) (nid : String) : Resp × DB :=
  if db.notifications.any (fun n => n.id == nid) then
    (Resp.success,
     { db with notifications := db.notifications.filter (fun n => n.id != nid) })
  else
    (Resp.notFound, db)

/-!
The denormalised-resolution invariant of the specification.
-/

/-- Status is one of the two terminal-ish states. -/
def statusResolvedOrSpam (a : Alert) : Prop :=
  a.status = some "resolved" ∨ a.status = some "spam"

instance (a : Alert) : Decidable (statusResolvedOrSpam a) := by
  unfold statusResolvedOrSpam; infer_instance

/-- The claimed invariant: resolved iff status is resolved or spam, and
resolved_at is set iff resolved. -/
def resolvedInvariant (a : Alert) : Prop :=
  (a.resolved = true ↔ statusResolvedOrSpam a) ∧
  (a.resolved_at ≠ none ↔ a.resolved = true)

instance (a : Alert) : Decidable (resolvedInvariant a) := by
  unfold resolvedInvariant; infer_instance

/-!
Concrete fixtures used to instantiate the general theorems.
-/

/-- A sample payload for registry theorems. -/
def sampleNotifData : NotifData :=
  { id := "n1", user_id := "42", type := "info", title := "t", message := "m",
    alert_id := "1", alert_location := some "Poblacion", timestamp := 0 }

/-- A second, distinct sample payload. -/
def sampleNotifData2 : NotifData :=
  { sampleNotifData with id := "n2" }

/-- A sample alert with an attributable reporter. -/
def sampleAlert : Alert :=
  submittedAlert 1 (some 7) none 8 123 (some "p") none (some "Poblacion") (some "Ana") 0

/-- A sample alert with no attributable reporter. -/
def sampleAlertNoUser : Alert :=
  submittedAlert 2 none none 8 123 (some "p") none (some "Poblacion") none 0

/-- A sample spam alert. -/
def sampleSpamAlert : Alert :=
  markSpamMutation 3 sampleAlert

/-- A sample store holding the three sample alerts and no notifications. -/
def sampleDB : DB :=
  { alerts := [sampleAlert, sampleAlertNoUser], notifications := [] }

/-- A sample store whose only alert is in spam status. -/
def sampleSpamDB : DB :=
  { alerts := [sampleSpamAlert], notifications := [] }

/-!
Helper lemmas about the store operations and traces.
-/

theorem findAlert_id (db : DB) (aid : Nat) (a : Alert)
    (h : findAlert db aid = some a) : a.id = aid := by
  unfold findAlert at h
  have := List.find?_some h
  simpa using this

theorem find?_map_update (l : List Alert) (b : Alert)
    (h : (l.find? (fun x => x.id == b.id)).isSome) :
    (l.map (fun x => if x.id == b.id then b else x)).find? (fun x => x.id == b.id)
      = some b := by
  induction l with
  | nil => simp at h
  | cons hd tl ih =>
    by_cases hc : hd.id = b.id
    · have hc2 : ((hd.id == b.id) = true) := by simp [hc]
      simp only [List.map_cons]
      rw [if_pos hc2]
      simp [List.find?_cons]
    · have hc3 : (hd.id == b.id) = false := by simp [hc]
      simp only [List.map_cons]
      rw [if_neg (by simp [hc])]
      simp only [List.find?_cons, hc3] at h ⊢
      exact ih h

theorem findAlert_updateAlert (db : DB) (b : Alert) (aid : Nat)
    (hid : b.id = aid) (h : (findAlert db aid).isSome) :
    findAlert (updateAlert db b) aid = some b := by
  subst hid
  unfold findAlert updateAlert at *
  exact find?_map_update db.alerts b h

theorem find?_filter_ne (l : List Alert) (aid : Nat) :
    (l.filter (fun a => a.id != aid)).find? (fun a => a.id == aid) = none := by
  induction l with
  | nil => rfl
  | cons hd tl ih =>
    by_cases hc : hd.id = aid
    · rw [List.filter_cons, if_neg (by simp [hc])]
      exact ih
    · rw [List.filter_cons, if_pos (by simp [hc])]
      have hc3 : (hd.id == aid) = false := by simp [hc]
      simp only [List.find?_cons, hc3]
      exact ih

theorem findAlert_removeAlert (db : DB) (aid : Nat) :
    findAlert (removeAlert db aid) aid = none := by
  unfold findAlert removeAlert
  exact find?_filter_ne db.alerts aid

theorem map_read_of_absent (l : List Notification) (nid : String)
    (h : ∀ n ∈ l, n.id ≠ nid) :
    l.map (fun n => if n.id == nid then { n with read := true } else n) = l := by
  induction l with
  | nil => rfl
  | cons hd tl ih =>
    have h1 : ¬((hd.id == nid) = true) := by simp [h hd (by simp)]
    have h2 := ih (fun n hn => h n (by simp [hn]))
    simp only [List.map_cons]
    rw [if_neg h1, h2]

theorem save_notification_trace (f : Bool) (nd : NotifData) (db : DB) (sse : SSEState) :
    (save_notification f nd db sse).2.2 = [Event.notifLogWrite] ∨
    (save_notification f nd db sse).2.2 = [Event.notifLogWrite, Event.ssePush] := by
  unfold save_notification
  cases h : nd.alert_location with
  | none => simp
  | some loc =>
    by_cases hf : f
    · simp [hf]
    · by_cases hu : (nd.user_id != "" && nd.user_id != "unknown") = true
      · simp [hf, hu]
      · simp [hf, hu]

theorem save_notification_db_of_fail (nd : NotifData) (db : DB) (sse : SSEState) :
    (save_notification true nd db sse).1 = db := by
  unfold save_notification
  cases h : nd.alert_location with
  | none => simp
  | some loc => simp

theorem precedesB_head_e1 (e1 e2 : Event) (tr : List Event) (h : e1 ≠ e2) :
    precedesB e1 e2 (e1 :: tr) = true := by
  have h2 : (e1 == e2) = false := beq_eq_false_iff_ne.mpr h
  simp [precedesB, h2]

theorem precedesB_cons_skip (e1 e2 e : Event) (tr : List Event)
    (h1 : e ≠ e1) (h2 : e ≠ e2) :
    precedesB e1 e2 (e :: tr) = precedesB e1 e2 tr := by
  have g1 : (e == e1) = false := beq_eq_false_iff_ne.mpr h1
  have g2 : (e == e2) = false := beq_eq_false_iff_ne.mpr h2
  simp [precedesB, g1, g2]

theorem precedesB_append_skip (e1 e2 : Event) (p l : List Event)
    (h : ∀ e ∈ p, e ≠ e1 ∧ e ≠ e2) :
    precedesB e1 e2 (p ++ l) = precedesB e1 e2 l := by
  induction p with
  | nil => rfl
  | cons hd tl ih =>
    have hh := h hd (by simp)
    rw [List.cons_append, precedesB_cons_skip e1 e2 hd (tl ++ l) hh.1 hh.2]
    exact ih (fun e he => h e (by simp [he]))

theorem precedesB_nil (e1 e2 : Event) : precedesB e1 e2 [] = true := rfl

theorem findAlert_eq_of_alerts (db1 db2 : DB) (aid : Nat) (h : db1.alerts = db2.alerts) :
    findAlert db1 aid = findAlert db2 aid := by
  unfold findAlert
  rw [h]

theorem save_notification_alerts (f : Bool) (nd : NotifData) (db : DB) (sse : SSEState) :
    (save_notification f nd db sse).1.alerts = db.alerts := by
  unfold save_notification
  cases h : nd.alert_location with
  | none => simp
  | some loc =>
    by_cases hf : f
    · simp [hf]
    · by_cases hu : (nd.user_id != "" && nd.user_id != "unknown") = true
      · simp [hf, hu]
      · simp [hf, hu]

theorem save_notification_of_fail (nd : NotifData) (db : DB) (sse : SSEState) :
    save_notification true nd db sse = (db, sse, [Event.notifLogWrite]) := by
  unfold save_notification
  cases h : nd.alert_location <;> simp

theorem save_notification_of_noloc (f : Bool) (nd : NotifData) (db : DB) (sse : SSEState)
    (h : nd.alert_location = none) :
    save_notification f nd db sse = (db, sse, [Event.notifLogWrite]) := by
  unfold save_notification
  rw [h]

theorem save_notification_of_push (nd : NotifData) (db : DB) (sse : SSEState) (loc : String)
    (h : nd.alert_location = some loc)
    (hu : (nd.user_id != "" && nd.user_id != "unknown") = true) :
    save_notification false nd db sse =
      ({ db with notifications := db.notifications ++ [notifRow nd loc] },
       send_sse_notification sse nd.user_id nd,
       [Event.notifLogWrite, Event.ssePush]) := by
  unfold save_notification
  rw [h]
  simp [hu]

theorem mediaReleaseEvents_all (a : Alert) :
    ∀ e ∈ mediaReleaseEvents a, e = Event.mediaRelease := by
  intro e he
  unfold mediaReleaseEvents at he
  rcases List.mem_append.mp he with h | h
  · cases hp : a.photo_filename <;> simp only [hp] at h
    · simp at h
    · split at h
      · simp at h; exact h
      · simp at h
  · cases hp : a.video_filename <;> simp only [hp] at h
    · simp at h
    · split at h
      · simp at h; exact h
      · simp at h

/-!
Unfolding equations for each handler, split on whether the alert exists.
-/

theorem respond_alert_eq (now : Nat) (logFail : Bool) (db : DB) (sse : SSEState)
    (aid : Nat) (msg : String) (a : Alert)
    (h : findAlert db aid = some a) (h0 : aid ≠ 0) (hm : msg ≠ "") :
    respond_alert now logFail db sse aid msg =
      if truthyId a.user_id then
        ⟨Resp.success,
         (save_notification logFail (respondNotifData now aid a msg)
            (updateAlert db (respondMutation now msg a)) sse).1,
         (save_notification logFail (respondNotifData now aid a msg)
            (updateAlert db (respondMutation now msg a)) sse).2.1,
         Event.alertCommit ::
           (save_notification logFail (respondNotifData now aid a msg)
              (updateAlert db (respondMutation now msg a)) sse).2.2 ++
             [Event.pushProvider]⟩
      else
        ⟨Resp.success, updateAlert db (respondMutation now msg a), sse,
         [Event.alertCommit]⟩ := by
  unfold respond_alert
  have g : (aid == 0 || msg == "") = false := by simp [h0, hm]
  rw [g]
  simp only [Bool.false_eq_true, if_false, h]
  cases ht : truthyId a.user_id <;> simp [ht]

theorem respond_alert_notFound (now : Nat) (logFail : Bool) (db : DB) (sse : SSEState)
    (aid : Nat) (msg : String)
    (h : findAlert db aid = none) (h0 : aid ≠ 0) (hm : msg ≠ "") :
    respond_alert now logFail db sse aid msg = ⟨Resp.notFound, db, sse, []⟩ := by
  unfold respond_alert
  have g : (aid == 0 || msg == "") = false := by simp [h0, hm]
  rw [g]
  simp only [Bool.false_eq_true, if_false, h]

theorem resolve_alert_with_time_eq (now : Nat) (logFail : Bool) (db : DB) (sse : SSEState)
    (aid : Nat) (rt : String) (a : Alert)
    (h : findAlert db aid = some a) (h0 : aid ≠ 0) (hrt : rt ≠ "") :
    resolve_alert_with_time now logFail db sse aid rt =
      ⟨Resp.success,
       (save_notification logFail (resolveNotifData now aid a rt)
          (updateAlert db (resolveWithTimeMutation now rt a)) sse).1,
       (save_notification logFail (resolveNotifData now aid a rt)
          (updateAlert db (resolveWithTimeMutation now rt a)) sse).2.1,
       Event.alertCommit ::
         (save_notification logFail (resolveNotifData now aid a rt)
            (updateAlert db (resolveWithTimeMutation now rt a)) sse).2.2 ++
           [Event.pushProvider]⟩ := by
  unfold resolve_alert_with_time
  have g : (aid == 0 || rt == "") = false := by simp [h0, hrt]
  rw [g]
  simp only [Bool.false_eq_true, if_false, h]

theorem resolve_alert_with_time_notFound (now : Nat) (logFail : Bool) (db : DB)
    (sse : SSEState) (aid : Nat) (rt : String)
    (h : findAlert db aid = none) (h0 : aid ≠ 0) (hrt : rt ≠ "") :
    resolve_alert_with_time now logFail db sse aid rt = ⟨Resp.notFound, db, sse, []⟩ := by
  unfold resolve_alert_with_time
  have g : (aid == 0 || rt == "") = false := by simp [h0, hrt]
  rw [g]
  simp only [Bool.false_eq_true, if_false, h]

theorem mark_spam_eq (now : Nat) (logFail : Bool) (db : DB) (sse : SSEState)
    (aid : Nat) (a : Alert) (h : findAlert db aid = some a) :
    mark_spam now logFail db sse aid =
      ⟨Resp.success,
       (save_notification logFail (spamNotifData now aid a)
          (updateAlert db (markSpamMutation now a)) sse).1,
       (save_notification logFail (spamNotifData now aid a)
          (updateAlert db (markSpamMutation now a)) sse).2.1,
       Event.alertCommit ::
         (save_notification logFail (spamNotifData now aid a)
            (updateAlert db (markSpamMutation now a)) sse).2.2 ++
           [Event.pushProvider]⟩ := by
  unfold mark_spam
  rw [h]

theorem mark_spam_notFound (now : Nat) (logFail : Bool) (db : DB) (sse : SSEState)
    (aid : Nat) (h : findAlert db aid = none) :
    mark_spam now logFail db sse aid = ⟨Resp.notFound, db, sse, []⟩ := by
  unfold mark_spam
  rw [h]

theorem restore_spam_alert_eq (now : Nat) (logFail : Bool) (db : DB) (sse : SSEState)
    (aid : Nat) (a : Alert) (h : findAlert db aid = some a) :
    restore_spam_alert now logFail db sse aid =
      ⟨Resp.success,
       (save_notification logFail (restoreNotifData now aid a)
          (updateAlert db (restoreSpamMutation a)) sse).1,
       (save_notification logFail (restoreNotifData now aid a)
          (updateAlert db (restoreSpamMutation a)) sse).2.1,
       Event.alertCommit ::
         (save_notification logFail (restoreNotifData now aid a)
            (updateAlert db (restoreSpamMutation a)) sse).2.2⟩ := by
  unfold restore_spam_alert
  rw [h]

theorem restore_spam_alert_notFound (now : Nat) (logFail : Bool) (db : DB) (sse : SSEState)
    (aid : Nat) (h : findAlert db aid = none) :
    restore_spam_alert now logFail db sse aid = ⟨Resp.notFound, db, sse, []⟩ := by
  unfold restore_spam_alert
  rw [h]

theorem delete_alert_new_eq (now : Nat) (logFail : Bool) (db : DB) (sse : SSEState)
    (aid : Nat) (a : Alert) (h : findAlert db aid = some a) :
    delete_alert_new now logFail db sse aid =
      ⟨Resp.success,
       removeAlert (save_notification logFail (deleteNotifData now aid a) db sse).1 aid,
       (save_notification logFail (deleteNotifData now aid a) db sse).2.1,
       (save_notification logFail (deleteNotifData now aid a) db sse).2.2 ++
         [Event.pushProvider] ++ mediaReleaseEvents a ++
         [Event.rowDelete, Event.alertCommit]⟩ := by
  unfold delete_alert_new
  rw [h]

theorem delete_alert_new_notFound (now : Nat) (logFail : Bool) (db : DB) (sse : SSEState)
    (aid : Nat) (h : findAlert db aid = none) :
    delete_alert_new now logFail db sse aid = ⟨Resp.notFound, db, sse, []⟩ := by
  unfold delete_alert_new
  rw [h]

/-!
Claim C1.
-/

/-- C1 counterexample: the legacy resolve transition applied to a freshly
submitted (pending, invariant-satisfying) alert sets resolved to true and
resolved_at to a value while leaving status at pending, so the claimed
invariant does not hold after this transition. -/
theorem C1_counterexample :
    resolvedInvariant
      (submittedAlert 1 (some 7) none 8 123 (some "p") none
        (some "Poblacion") (some "Ana") 0) ∧
    ¬ resolvedInvariant
      (legacyResolveMutation 5
        (submittedAlert 1 (some 7) none 8 123 (some "p") none
          (some "Poblacion") (some "Ana") 0)) := by
  decide

/-- C1 amended: the invariant (resolved iff status in resolved or spam,
and resolved_at set iff resolved) holds unconditionally after submit,
resolve-with-time, mark-spam and restore-from-spam; it holds after respond
provided it held before and the alert was not yet resolved; after the
legacy resolve it holds exactly when status was already resolved or spam;
after unresolve it holds exactly when status is neither resolved nor
spam. -/
theorem C1_amended (a : Alert) (now ts : Nat) (msg rt : String) (aid : Nat)
    (uid : Option Int) (desc ph vid bar rep : Option String) (lat lng : Int) :
    resolvedInvariant (submittedAlert aid uid desc lat lng ph vid bar rep ts) ∧
    resolvedInvariant (resolveWithTimeMutation now rt a) ∧
    resolvedInvariant (markSpamMutation now a) ∧
    resolvedInvariant (restoreSpamMutation a) ∧
    (resolvedInvariant a → a.resolved = false →
      resolvedInvariant (respondMutation now msg a)) ∧
    (resolvedInvariant (legacyResolveMutation now a) ↔ statusResolvedOrSpam a) ∧
    (resolvedInvariant (unresolveMutation a) ↔ ¬ statusResolvedOrSpam a) := by
  refine ⟨?_, ?_, ?_, ?_, ?_, ?_, ?_⟩
  · simp [resolvedInvariant, statusResolvedOrSpam, submittedAlert]
  · simp [resolvedInvariant, statusResolvedOrSpam, resolveWithTimeMutation]
  · simp [resolvedInvariant, statusResolvedOrSpam, markSpamMutation]
  · simp [resolvedInvariant, statusResolvedOrSpam, restoreSpamMutation]
  · intro hinv hres
    have h2 : a.resolved_at = none := by
      rcases hinv with ⟨h1, h2⟩
      simp [hres] at h2
      exact h2
    simp [resolvedInvariant, statusResolvedOrSpam, respondMutation, hres, h2]
  · simp [resolvedInvariant, statusResolvedOrSpam, legacyResolveMutation]
  · simp [resolvedInvariant, statusResolvedOrSpam, unresolveMutation]

/-- C1 amended witness: the respond conjunct applied to a concrete fresh
alert. -/
theorem C1_amended_witness :
    resolvedInvariant (respondMutation 5 "On the way"
      (submittedAlert 1 (some 7) none 8 123 (some "p") none
        (some "Poblacion") (some "Ana") 0)) :=
  (C1_amended
      (submittedAlert 1 (some 7) none 8 123 (some "p") none
        (some "Poblacion") (some "Ana") 0)
      5 0 "On the way" "14:32" 1 (some 7) none (some "p") none
      (some "Poblacion") (some "Ana") 8 123).2.2.2.2.1
    (by decide) (by decide)

/-!
Claims C5 and C10: the SSE connection registry and fan-out.
-/

/-- C5: with two distinct channels registered for one recipient, one
fan-out delivers the payload to both queues; deregistering one channel
leaves the other registered and still delivered to; the deregistered
channel receives nothing from any subsequent fan-out; and fan-out to a
recipient with no registered channel returns the state unchanged (nothing
can raise). -/
theorem C5_fanout (uid : String) (c1 c2 : Nat) (nd nd2 : NotifData) (hne : c1 ≠ c2) :
    (queueContents (send_sse_notification ⟨[(uid, [c1, c2])], []⟩ uid nd) c1 = [nd] ∧
     queueContents (send_sse_notification ⟨[(uid, [c1, c2])], []⟩ uid nd) c2 = [nd]) ∧
    (remove_sse_connection ⟨[(uid, [c1, c2])], []⟩ uid c1).conns = [(uid, [c2])] ∧
    (∀ (uid2 : String) (nd3 : NotifData),
      queueContents
        (send_sse_notification
          (remove_sse_connection ⟨[(uid, [c1, c2])], []⟩ uid c1) uid2 nd3) c1 = []) ∧
    queueContents
        (send_sse_notification
          (remove_sse_connection ⟨[(uid, [c1, c2])], []⟩ uid c1) uid nd2) c2 = [nd2] ∧
    (∀ (s : SSEState) (uid3 : String) (nd4 : NotifData),
      s.conns.find? (fun p => p.1 == uid3) = none →
      send_sse_notification s uid3 nd4 = s) := by
  have h12 : (c1 == c2) = false := by simp [hne]
  have h21 : (c2 == c1) = false := by simp [Ne.symm hne]
  have hsend : send_sse_notification ⟨[(uid, [c1, c2])], []⟩ uid nd
      = ⟨[(uid, [c1, c2])], [(c1, [nd]), (c2, [nd])]⟩ := by
    simp [send_sse_notification, List.find?_cons, putQueue, h12]
  have hrem : remove_sse_connection ⟨[(uid, [c1, c2])], []⟩ uid c1
      = ⟨[(uid, [c2])], []⟩ := by
    simp [remove_sse_connection, List.find?_cons, List.erase_cons, List.isEmpty]
  refine ⟨⟨?_, ?_⟩, ?_, ?_, ?_, ?_⟩
  · rw [hsend]
    simp [queueContents, List.find?_cons]
  · rw [hsend]
    simp [queueContents, List.find?_cons, h12]
  · rw [hrem]
  · intro uid2 nd3
    rw [hrem]
    by_cases huid : uid2 = uid
    · subst huid
      simp [send_sse_notification, List.find?_cons, putQueue, queueContents, h21]
    · have : (uid == uid2) = false := by simp [Ne.symm huid]
      simp [send_sse_notification, List.find?_cons, this, queueContents]
  · rw [hrem]
    simp [send_sse_notification, List.find?_cons, putQueue, queueContents]
  · intro s uid3 nd4 hnone
    unfold send_sse_notification
    rw [hnone]

/-- C5 witness: the double-delivery conjunct at concrete inputs. -/
theorem C5_fanout_witness :
    queueContents
      (send_sse_notification ⟨[("42", [0, 1])], []⟩ "42" sampleNotifData) 0
      = [sampleNotifData] :=
  ((C5_fanout "42" 0 1 sampleNotifData sampleNotifData2 (by decide)).1).1

/-- C10: registering the same channel twice for one recipient stores two
entries, a single fan-out then enqueues the payload twice into that
channel queue, and one deregister call removes only one of the two
entries, leaving the channel still registered. -/
theorem C10_duplicate_registration (uid : String) (c : Nat) (nd : NotifData) :
    (add_sse_connection (add_sse_connection ⟨[], []⟩ uid c) uid c).conns
      = [(uid, [c, c])] ∧
    queueContents
      (send_sse_notification
        (add_sse_connection (add_sse_connection ⟨[], []⟩ uid c) uid c) uid nd) c
      = [nd, nd] ∧
    (remove_sse_connection
        (add_sse_connection (add_sse_connection ⟨[], []⟩ uid c) uid c) uid c).conns
      = [(uid, [c])] := by
  have h1 : add_sse_connection ⟨[], []⟩ uid c = ⟨[(uid, [c])], []⟩ := by
    simp [add_sse_connection]
  have h2 : add_sse_connection (⟨[(uid, [c])], []⟩ : SSEState) uid c
      = ⟨[(uid, [c, c])], []⟩ := by
    simp [add_sse_connection]
  rw [h1, h2]
  refine ⟨rfl, ?_, ?_⟩
  · simp [send_sse_notification, List.find?_cons, putQueue, queueContents]
  · simp [remove_sse_connection, List.find?_cons, List.erase_cons, List.isEmpty]

/-!
Claims C7 and C8: restore idempotence and the respond contract.
-/

theorem restoreSpamMutation_idem (a : Alert) :
    restoreSpamMutation (restoreSpamMutation a) = restoreSpamMutation a := rfl

theorem save_notification_of_nopush (nd : NotifData) (db : DB) (sse : SSEState)
    (loc : String) (h : nd.alert_location = some loc)
    (hu : (nd.user_id != "" && nd.user_id != "unknown") = false) :
    save_notification false nd db sse =
      ({ db with notifications := db.notifications ++ [notifRow nd loc] }, sse,
       [Event.notifLogWrite]) := by
  unfold save_notification
  rw [h]
  simp [hu]

theorem save_notification_db_ok (nd : NotifData) (db : DB) (sse : SSEState)
    (loc : String) (h : nd.alert_location = some loc) :
    (save_notification false nd db sse).1
      = { db with notifications := db.notifications ++ [notifRow nd loc] } := by
  by_cases hu : (nd.user_id != "" && nd.user_id != "unknown") = true
  · rw [save_notification_of_push nd db sse loc h hu]
  · have hu2 : (nd.user_id != "" && nd.user_id != "unknown") = false := by
      revert hu
      cases nd.user_id != "" && nd.user_id != "unknown" <;> simp
    rw [save_notification_of_nopush nd db sse loc h hu2]

/-- C7: restore-from-spam on an existing spam alert sets status pending,
resolved false, resolved_at null, and a second restore call on the now
pending alert leaves the alert state unchanged. -/
theorem C7_restore (now now2 : Nat) (logFail : Bool) (db : DB) (sse : SSEState)
    (aid : Nat) (a : Alert)
    (h : findAlert db aid = some a) (hs : a.status = some "spam") :
    (restore_spam_alert now logFail db sse aid).resp = Resp.success ∧
    findAlert (restore_spam_alert now logFail db sse aid).db aid
      = some (restoreSpamMutation a) ∧
    (restoreSpamMutation a).status = some "pending" ∧
    (restoreSpamMutation a).resolved = false ∧
    (restoreSpamMutation a).resolved_at = none ∧
    findAlert (restore_spam_alert now2 logFail
        (restore_spam_alert now logFail db sse aid).db
        (restore_spam_alert now logFail db sse aid).sse aid).db aid
      = findAlert (restore_spam_alert now logFail db sse aid).db aid := by
  have hid : a.id = aid := findAlert_id db aid a h
  have hida : (restoreSpamMutation a).id = aid := hid
  have hfind1 : findAlert (restore_spam_alert now logFail db sse aid).db aid
      = some (restoreSpamMutation a) := by
    rw [restore_spam_alert_eq now logFail db sse aid a h]
    rw [findAlert_eq_of_alerts _ (updateAlert db (restoreSpamMutation a)) aid
      (save_notification_alerts logFail (restoreNotifData now aid a)
        (updateAlert db (restoreSpamMutation a)) sse)]
    exact findAlert_updateAlert db (restoreSpamMutation a) aid hida (by rw [h]; rfl)
  refine ⟨?_, hfind1, rfl, rfl, rfl, ?_⟩
  · rw [restore_spam_alert_eq now logFail db sse aid a h]
  · rw [restore_spam_alert_eq now2 logFail
      (restore_spam_alert now logFail db sse aid).db
      (restore_spam_alert now logFail db sse aid).sse aid (restoreSpamMutation a) hfind1]
    rw [findAlert_eq_of_alerts _
      (updateAlert (restore_spam_alert now logFail db sse aid).db
        (restoreSpamMutation (restoreSpamMutation a))) aid
      (save_notification_alerts logFail
        (restoreNotifData now2 aid (restoreSpamMutation a))
        (updateAlert (restore_spam_alert now logFail db sse aid).db
          (restoreSpamMutation (restoreSpamMutation a)))
        (restore_spam_alert now logFail db sse aid).sse)]
    rw [restoreSpamMutation_idem]
    rw [findAlert_updateAlert (restore_spam_alert now logFail db sse aid).db
      (restoreSpamMutation a) aid hida (by rw [hfind1]; rfl)]
    rw [hfind1]

/-- C7 witness: restore applied to the concrete spam store. -/
theorem C7_restore_witness :
    findAlert (restore_spam_alert 10 false sampleSpamDB ⟨[], []⟩ 1).db 1
      = some (restoreSpamMutation sampleSpamAlert) :=
  (C7_restore 10 11 false sampleSpamDB ⟨[], []⟩ 1 sampleSpamAlert
    (by decide) (by decide)).2.1

/-- C8: respond on an existing alert stores the admin response, the
response time and the received status; a response notification addressed
to the reporter is persisted exactly when the reporter is attributable
(the user_id column is truthy), and emission is skipped entirely, with no
log write in the trace, when the reporter is unknown. -/
theorem C8_respond (now : Nat) (db : DB) (sse : SSEState) (aid : Nat) (msg : String)
    (a : Alert) (h : findAlert db aid = some a) (h0 : aid ≠ 0) (hm : msg ≠ "") :
    (respond_alert now false db sse aid msg).resp = Resp.success ∧
    findAlert (respond_alert now false db sse aid msg).db aid
      = some (respondMutation now msg a) ∧
    (respondMutation now msg a).admin_response = some msg ∧
    (respondMutation now msg a).responded_at = some now ∧
    (respondMutation now msg a).status = some "received" ∧
    (truthyId a.user_id = true →
      (respond_alert now false db sse aid msg).db.notifications
        = db.notifications ++
            [notifRow (respondNotifData now aid a msg) (alertLocation a)] ∧
      (respondNotifData now aid a msg).type = "response" ∧
      (respondNotifData now aid a msg).user_id = pyStr a.user_id ∧
      (respondNotifData now aid a msg).message = msg) ∧
    (truthyId a.user_id = false →
      (respond_alert now false db sse aid msg).db.notifications = db.notifications ∧
      Event.notifLogWrite ∉ (respond_alert now false db sse aid msg).trace) := by
  have hid : a.id = aid := findAlert_id db aid a h
  have hida : (respondMutation now msg a).id = aid := hid
  rw [respond_alert_eq now false db sse aid msg a h h0 hm]
  cases ht : truthyId a.user_id
  · simp only [Bool.false_eq_true, if_false]
    refine ⟨by trivial, ?_, by trivial, by trivial, by trivial, ?_, ?_⟩
    · exact findAlert_updateAlert db (respondMutation now msg a) aid hida (by rw [h]; rfl)
    · intro hcon
      simp at hcon
    · intro _
      refine ⟨by trivial, ?_⟩
      decide
  · simp only [if_true]
    refine ⟨by trivial, ?_, by trivial, by trivial, by trivial, ?_, ?_⟩
    · rw [findAlert_eq_of_alerts _ (updateAlert db (respondMutation now msg a)) aid
        (save_notification_alerts false (respondNotifData now aid a msg)
          (updateAlert db (respondMutation now msg a)) sse)]
      exact findAlert_updateAlert db (respondMutation now msg a) aid hida (by rw [h]; rfl)
    · intro _
      refine ⟨?_, by trivial, by trivial, by trivial⟩
      rw [save_notification_db_ok (respondNotifData now aid a msg)
        (updateAlert db (respondMutation now msg a)) sse (alertLocation a) rfl]
      rfl
    · intro hcon
      simp at hcon

/-- C8 witness: respond applied to the concrete store, attributable
reporter branch. -/
theorem C8_respond_witness :
    (respond_alert 5 false sampleDB ⟨[], []⟩ 1 "On the way").db.notifications
      = sampleDB.notifications ++
          [notifRow (respondNotifData 5 1 sampleAlert "On the way")
            (alertLocation sampleAlert)] :=
  ((C8_respond 5 sampleDB ⟨[], []⟩ 1 "On the way" sampleAlert
      (by decide) (by decide) (by decide)).2.2.2.2.2.1 (by decide)).1

/-!
Claims C3 and C2: best-effort notification log and step ordering.
-/

theorem rollback_notin_media (a : Alert) : Event.rollback ∉ mediaReleaseEvents a := by
  intro hmem
  have hx := mediaReleaseEvents_all a Event.rollback hmem
  exact absurd hx (by decide)

/-- C3: when the notification log write fails after the alert mutation was
committed, every emitting transition still answers success, the mutated
(or deleted) alert state stays applied, no notification row appears, and
no rollback step occurs. Resolve-with-time, mark-spam, restore and delete
emit for every alert (sentinel recipient when anonymous), so they carry no
reporter hypothesis; respond emits only when the reporter is attributable,
so only its conjunct is conditioned on a truthy user_id. -/
theorem C3_best_effort (now : Nat) (db : DB) (sse : SSEState) (aid : Nat)
    (msg rt : String) (a : Alert)
    (h : findAlert db aid = some a) (h0 : aid ≠ 0) (hm : msg ≠ "") (hrt : rt ≠ "") :
    (truthyId a.user_id = true →
     (respond_alert now true db sse aid msg).resp = Resp.success ∧
     findAlert (respond_alert now true db sse aid msg).db aid
        = some (respondMutation now msg a) ∧
     (respond_alert now true db sse aid msg).db.notifications = db.notifications ∧
     Event.rollback ∉ (respond_alert now true db sse aid msg).trace) ∧
    ((resolve_alert_with_time now true db sse aid rt).resp = Resp.success ∧
     findAlert (resolve_alert_with_time now true db sse aid rt).db aid
        = some (resolveWithTimeMutation now rt a) ∧
     (resolve_alert_with_time now true db sse aid rt).db.notifications
        = db.notifications ∧
     Event.rollback ∉ (resolve_alert_with_time now true db sse aid rt).trace) ∧
    ((mark_spam now true db sse aid).resp = Resp.success ∧
     findAlert (mark_spam now true db sse aid).db aid
        = some (markSpamMutation now a) ∧
     (mark_spam now true db sse aid).db.notifications = db.notifications ∧
     Event.rollback ∉ (mark_spam now true db sse aid).trace) ∧
    ((restore_spam_alert now true db sse aid).resp = Resp.success ∧
     findAlert (restore_spam_alert now true db sse aid).db aid
        = some (restoreSpamMutation a) ∧
     (restore_spam_alert now true db sse aid).db.notifications = db.notifications ∧
     Event.rollback ∉ (restore_spam_alert now true db sse aid).trace) ∧
    ((delete_alert_new now true db sse aid).resp = Resp.success ∧
     findAlert (delete_alert_new now true db sse aid).db aid = none ∧
     Event.rollback ∉ (delete_alert_new now true db sse aid).trace) := by
  have hid : a.id = aid := findAlert_id db aid a h
  refine ⟨?_, ?_, ?_, ?_, ?_⟩
  · intro ht
    rw [respond_alert_eq now true db sse aid msg a h h0 hm, if_pos ht,
      save_notification_of_fail (respondNotifData now aid a msg)
        (updateAlert db (respondMutation now msg a)) sse]
    exact ⟨rfl, findAlert_updateAlert db _ aid hid (by rw [h]; rfl), rfl, by simp⟩
  · rw [resolve_alert_with_time_eq now true db sse aid rt a h h0 hrt,
      save_notification_of_fail (resolveNotifData now aid a rt)
        (updateAlert db (resolveWithTimeMutation now rt a)) sse]
    exact ⟨rfl, findAlert_updateAlert db _ aid hid (by rw [h]; rfl), rfl, by simp⟩
  · rw [mark_spam_eq now true db sse aid a h,
      save_notification_of_fail (spamNotifData now aid a)
        (updateAlert db (markSpamMutation now a)) sse]
    exact ⟨rfl, findAlert_updateAlert db _ aid hid (by rw [h]; rfl), rfl, by simp⟩
  · rw [restore_spam_alert_eq now true db sse aid a h,
      save_notification_of_fail (restoreNotifData now aid a)
        (updateAlert db (restoreSpamMutation a)) sse]
    exact ⟨rfl, findAlert_updateAlert db _ aid hid (by rw [h]; rfl), rfl, by simp⟩
  · rw [delete_alert_new_eq now true db sse aid a h,
      save_notification_of_fail (deleteNotifData now aid a) db sse]
    refine ⟨rfl, findAlert_removeAlert db aid, ?_⟩
    intro hmem
    rcases List.mem_append.mp hmem with h1 | h2
    · rcases List.mem_append.mp h1 with h3 | h4
      · simp at h3
      · exact rollback_notin_media a h4
    · simp at h2

/-- C3 witness: the resolve conjunct at the concrete store with a failing
log write, on the anonymous alert whose notification is addressed to the
sentinel recipient. -/
theorem C3_best_effort_witness :
    (resolve_alert_with_time 9 true sampleDB ⟨[], []⟩ 2 "14:32").db.notifications
      = sampleDB.notifications :=
  (C3_best_effort 9 sampleDB ⟨[], []⟩ 2 "m" "14:32" sampleAlertNoUser
      (by decide) (by decide) (by decide) (by decide)).2.1.2.2.1

/-- C2 counterexample: on the delete transition at a concrete input, the
notification log write is attempted before the alert row mutation (the
row removal) is committed, so the claimed commit-before-log ordering
fails for delete. -/
theorem C2_counterexample :
    precedesB Event.alertCommit Event.notifLogWrite
      (delete_alert_new 100 false sampleDB ⟨[], []⟩ 1).trace = false := by
  decide

theorem delete_trace_order (tr media : List Event)
    (htr : tr = [Event.notifLogWrite] ∨ tr = [Event.notifLogWrite, Event.ssePush])
    (hmedia : ∀ e ∈ media, e = Event.mediaRelease) :
    precedesB Event.notifLogWrite Event.ssePush
        (tr ++ [Event.pushProvider] ++ media ++
          [Event.rowDelete, Event.alertCommit]) = true ∧
    precedesB Event.notifLogWrite Event.rowDelete
        (tr ++ [Event.pushProvider] ++ media ++
          [Event.rowDelete, Event.alertCommit]) = true ∧
    precedesB Event.rowDelete Event.alertCommit
        (tr ++ [Event.pushProvider] ++ media ++
          [Event.rowDelete, Event.alertCommit]) = true := by
  have hall : ∀ e ∈ ((tr ++ [Event.pushProvider]) ++ media),
      e ≠ Event.rowDelete ∧ e ≠ Event.alertCommit := by
    intro e he
    rcases List.mem_append.mp he with h1 | h2
    · rcases List.mem_append.mp h1 with h3 | h4
      · rcases htr with h | h <;> subst h
        · simp at h3
          subst h3
          exact ⟨by decide, by decide⟩
        · simp at h3
          rcases h3 with h3 | h3 <;> subst h3 <;> exact ⟨by decide, by decide⟩
      · simp at h4
        subst h4
        exact ⟨by decide, by decide⟩
    · have hm := hmedia e h2
      subst hm
      exact ⟨by decide, by decide⟩
  refine ⟨?_, ?_, ?_⟩
  · rcases htr with h | h <;> subst h <;> rfl
  · rcases htr with h | h <;> subst h <;> rfl
  · rw [precedesB_append_skip Event.rowDelete Event.alertCommit _ _ hall]
    decide

/-- C2 amended: for respond, resolve-with-time, mark-spam and
restore-from-spam the alert commit precedes the notification log write
attempt, which precedes the SSE fan-out; for delete the log write attempt
precedes the fan-out and precedes the row removal, and the removal
precedes its commit — the delete row mutation is committed only after the
notification is attempted, per the delete contract. -/
theorem C2_amended (now : Nat) (logFail : Bool) (db : DB) (sse : SSEState) (aid : Nat)
    (msg rt : String) (h0 : aid ≠ 0) (hm : msg ≠ "") (hrt : rt ≠ "") :
    (precedesB Event.alertCommit Event.notifLogWrite
        (respond_alert now logFail db sse aid msg).trace = true ∧
     precedesB Event.notifLogWrite Event.ssePush
        (respond_alert now logFail db sse aid msg).trace = true) ∧
    (precedesB Event.alertCommit Event.notifLogWrite
        (resolve_alert_with_time now logFail db sse aid rt).trace = true ∧
     precedesB Event.notifLogWrite Event.ssePush
        (resolve_alert_with_time now logFail db sse aid rt).trace = true) ∧
    (precedesB Event.alertCommit Event.notifLogWrite
        (mark_spam now logFail db sse aid).trace = true ∧
     precedesB Event.notifLogWrite Event.ssePush
        (mark_spam now logFail db sse aid).trace = true) ∧
    (precedesB Event.alertCommit Event.notifLogWrite
        (restore_spam_alert now logFail db sse aid).trace = true ∧
     precedesB Event.notifLogWrite Event.ssePush
        (restore_spam_alert now logFail db sse aid).trace = true) ∧
    (precedesB Event.notifLogWrite Event.ssePush
        (delete_alert_new now logFail db sse aid).trace = true ∧
     precedesB Event.notifLogWrite Event.rowDelete
        (delete_alert_new now logFail db sse aid).trace = true ∧
     precedesB Event.rowDelete Event.alertCommit
        (delete_alert_new now logFail db sse aid).trace = true) := by
  refine ⟨?_, ?_, ?_, ?_, ?_⟩
  · cases hfa : findAlert db aid with
    | none =>
      rw [respond_alert_notFound now logFail db sse aid msg hfa h0 hm]
      exact ⟨rfl, rfl⟩
    | some a =>
      rw [respond_alert_eq now logFail db sse aid msg a hfa h0 hm]
      cases ht : truthyId a.user_id
      · simp only [Bool.false_eq_true, if_false]
        exact ⟨rfl, rfl⟩
      · simp only [if_true]
        rcases save_notification_trace logFail (respondNotifData now aid a msg)
            (updateAlert db (respondMutation now msg a)) sse with hS | hS <;>
          rw [hS] <;> exact ⟨rfl, rfl⟩
  · cases hfa : findAlert db aid with
    | none =>
      rw [resolve_alert_with_time_notFound now logFail db sse aid rt hfa h0 hrt]
      exact ⟨rfl, rfl⟩
    | some a =>
      rw [resolve_alert_with_time_eq now logFail db sse aid rt a hfa h0 hrt]
      rcases save_notification_trace logFail (resolveNotifData now aid a rt)
          (updateAlert db (resolveWithTimeMutation now rt a)) sse with hS | hS <;>
        rw [hS] <;> exact ⟨rfl, rfl⟩
  · cases hfa : findAlert db aid with
    | none =>
      rw [mark_spam_notFound now logFail db sse aid hfa]
      exact ⟨rfl, rfl⟩
    | some a =>
      rw [mark_spam_eq now logFail db sse aid a hfa]
      rcases save_notification_trace logFail (spamNotifData now aid a)
          (updateAlert db (markSpamMutation now a)) sse with hS | hS <;>
        rw [hS] <;> exact ⟨rfl, rfl⟩
  · cases hfa : findAlert db aid with
    | none =>
      rw [restore_spam_alert_notFound now logFail db sse aid hfa]
      exact ⟨rfl, rfl⟩
    | some a =>
      rw [restore_spam_alert_eq now logFail db sse aid a hfa]
      rcases save_notification_trace logFail (restoreNotifData now aid a)
          (updateAlert db (restoreSpamMutation a)) sse with hS | hS <;>
        rw [hS] <;> exact ⟨rfl, rfl⟩
  · cases hfa : findAlert db aid with
    | none =>
      rw [delete_alert_new_notFound now logFail db sse aid hfa]
      exact ⟨rfl, rfl, rfl⟩
    | some a =>
      rw [delete_alert_new_eq now logFail db sse aid a hfa]
      exact delete_trace_order
        ((save_notification logFail (deleteNotifData now aid a) db sse).2.2)
        (mediaReleaseEvents a)
        (save_notification_trace logFail (deleteNotifData now aid a) db sse)
        (mediaReleaseEvents_all a)

/-- C2 amended witness: the resolve ordering at concrete inputs. -/
theorem C2_amended_witness :
    precedesB Event.alertCommit Event.notifLogWrite
      (resolve_alert_with_time 9 false sampleDB ⟨[], []⟩ 1 "14:32").trace = true :=
  (C2_amended 9 false sampleDB ⟨[], []⟩ 1 "m" "14:32"
      (by decide) (by decide) (by decide)).2.1.1

/-!
Claims C9, C4 and C6.
-/

/-- C9 counterexample: marking an unknown notification id as read answers
success, not a not-found error, because the handler issues the UPDATE with
no existence check. -/
theorem C9_counterexample :
    mark_notification_read ⟨[], []⟩ "missing" = (Resp.success, ⟨[], []⟩) ∧
    (mark_notification_read ⟨[], []⟩ "missing").1 ≠ Resp.notFound := by
  decide

/-- C9 amended: respond, resolve-with-time, mark-spam, restore, delete and
delete-notification answer not found for an unknown id and leave both
stores and the registry untouched with an empty trace; mark-notification-
read also performs no mutation on an unknown id but answers success
instead of not found. -/
theorem C9_amended (now : Nat) (logFail : Bool) (db : DB) (sse : SSEState) (aid : Nat)
    (msg rt nid : String)
    (h : findAlert db aid = none) (h0 : aid ≠ 0) (hm : msg ≠ "") (hrt : rt ≠ "")
    (hn : ∀ n ∈ db.notifications, n.id ≠ nid) :
    respond_alert now logFail db sse aid msg = ⟨Resp.notFound, db, sse, []⟩ ∧
    resolve_alert_with_time now logFail db sse aid rt = ⟨Resp.notFound, db, sse, []⟩ ∧
    mark_spam now logFail db sse aid = ⟨Resp.notFound, db, sse, []⟩ ∧
    restore_spam_alert now logFail db sse aid = ⟨Resp.notFound, db, sse, []⟩ ∧
    delete_alert_new now logFail db sse aid = ⟨Resp.notFound, db, sse, []⟩ ∧
    delete_notification db nid = (Resp.notFound, db) ∧
    mark_notification_read db nid = (Resp.success, db) := by
  refine ⟨respond_alert_notFound now logFail db sse aid msg h h0 hm,
    resolve_alert_with_time_notFound now logFail db sse aid rt h h0 hrt,
    mark_spam_notFound now logFail db sse aid h,
    restore_spam_alert_notFound now logFail db sse aid h,
    delete_alert_new_notFound now logFail db sse aid h, ?_, ?_⟩
  · unfold delete_notification
    have hany : db.notifications.any (fun n => n.id == nid) = false := by
      rw [List.any_eq_false]
      intro n hmem
      simp [hn n hmem]
    rw [hany]
    simp
  · unfold mark_notification_read
    rw [map_read_of_absent db.notifications nid hn]

/-- C9 amended witness: the respond conjunct on an empty store. -/
theorem C9_amended_witness :
    respond_alert 0 false ⟨[], []⟩ ⟨[], []⟩ 5 "m"
      = ⟨Resp.notFound, ⟨[], []⟩, ⟨[], []⟩, []⟩ :=
  (C9_amended 0 false ⟨[], []⟩ ⟨[], []⟩ 5 "m" "t" "x"
      (by decide) (by decide) (by decide) (by decide) (by simp)).1

/-- C4: the delete handler builds its notification dictionary without the
alert_location key that the notifications insert binds, so at this
concrete input the log write raises and is swallowed: the handler still
answers success and deletes the row, but no deleted notification is
persisted and nothing is pushed, contradicting the claimed emission
before removal. -/
theorem C4_code_bug :
    (deleteNotifData 100 1 sampleAlert).alert_location = none ∧
    (delete_alert_new 100 false sampleDB ⟨[], []⟩ 1).resp = Resp.success ∧
    findAlert (delete_alert_new 100 false sampleDB ⟨[], []⟩ 1).db 1 = none ∧
    (delete_alert_new 100 false sampleDB ⟨[], []⟩ 1).db.notifications = [] ∧
    (delete_alert_new 100 false sampleDB ⟨[], []⟩ 1).sse = ⟨[], []⟩ ∧
    Event.ssePush ∉ (delete_alert_new 100 false sampleDB ⟨[], []⟩ 1).trace := by
  decide

/-- C6 counterexample: resolving and then marking the same alert as spam
within the same clock second makes both handler runs succeed, yet the two
notifications they create carry the identical id notif_1_100: the id
composite is not distinct across same-second emissions for one alert.
The first emission is stored under that id; the colliding second insert
then fails against the primary key in the program and is swallowed, so
the second notification is silently lost rather than stored — the
asserted facts below (constructed dictionaries, both success responses,
and the contents after the first, collision-free insert) are exactly the
program behaviour. -/
theorem C6_counterexample :
    (resolveNotifData 100 1 sampleAlert "14:32").id = notifId 1 100 ∧
    (spamNotifData 100 1 (resolveWithTimeMutation 100 "14:32" sampleAlert)).id
      = notifId 1 100 ∧
    resolveNotifData 100 1 sampleAlert "14:32"
      ≠ spamNotifData 100 1 (resolveWithTimeMutation 100 "14:32" sampleAlert) ∧
    ((resolve_alert_with_time 100 false sampleDB ⟨[], []⟩ 1 "14:32").db.notifications.map
        (fun n => n.id))
      = [notifId 1 100] ∧
    (resolve_alert_with_time 100 false sampleDB ⟨[], []⟩ 1 "14:32").resp
      = Resp.success ∧
    findAlert (resolve_alert_with_time 100 false sampleDB ⟨[], []⟩ 1 "14:32").db 1
      = some (resolveWithTimeMutation 100 "14:32" sampleAlert) ∧
    (mark_spam 100 false
        (resolve_alert_with_time 100 false sampleDB ⟨[], []⟩ 1 "14:32").db
        (resolve_alert_with_time 100 false sampleDB ⟨[], []⟩ 1 "14:32").sse
        1).resp = Resp.success := by
  decide

/-- C6 amended: every emitted notification id is exactly the composite of
the stable prefix, the alert id and the second-granularity timestamp, so
ids for the same alert are distinct only when the creation seconds differ;
two same-second emissions for one alert, even by different transitions,
receive the identical id. -/
theorem C6_amended (now aid : Nat) (a b : Alert) (msg rt : String) :
    (respondNotifData now aid a msg).id = notifId aid now ∧
    (resolveNotifData now aid a rt).id = notifId aid now ∧
    (deleteNotifData now aid a).id = notifId aid now ∧
    (spamNotifData now aid a).id = notifId aid now ∧
    (restoreNotifData now aid a).id = notifId aid now ∧
    (resolveNotifData now aid a rt).id = (spamNotifData now aid b).id :=
  ⟨rfl, rfl, rfl, rfl, rfl, rfl⟩

/-- C6 amended witness: two same-second emissions for alert one share the
identical id. -/
theorem C6_amended_witness :
    (resolveNotifData 100 1 sampleAlert "14:32").id
      = (spamNotifData 100 1 sampleAlertNoUser).id :=
  (C6_amended 100 1 sampleAlert sampleAlertNoUser "m" "14:32").2.2.2.2.2

/-- C10 witness: the double enqueue at concrete inputs. -/
theorem C10_duplicate_registration_witness :
    queueContents
      (send_sse_notification
        (add_sse_connection (add_sse_connection ⟨[], []⟩ "42" 0) "42" 0) "42"
        sampleNotifData) 0
      = [sampleNotifData, sampleNotifData] :=
  (C10_duplicate_registration "42" 0 sampleNotifData).2.1

end FireBackend
